import Mathlib

/-!
Verification of the `intelliwrite` AEO blog engine against its specification.

The development shallowly embeds the Python sources:
  * `aeo_blog_engine/pipeline/blog_workflow.py` — the five-stage blog pipeline,
    its research-validation heuristic and its deterministic research fallback;
  * `aeo_blog_engine/services.py` — blog persistence services;
  * `aeo_blog_engine/database/session.py` — the transactional session manager;
  * `aeo_blog_engine/api.py` — the three latest-blog REST endpoints.

External LLM agents, the knowledge base and the relational store are modelled
as oracles/explicit state.  Python strings are Lean `String`s; Python
truthiness of optional strings is made explicit (`truthy`, `otruthy`).
-/

namespace Intelliwrite

/-! ### Python string primitives -/

/-- Characters treated as whitespace by Python `str.strip()`. -/
def isPyWs (c : Char) : Bool :=
  c = ' ' || c = '\t' || c = '\n' || c = '\r' || c = '\x0b' || c = '\x0c'

/-- `str.strip()` on a character list: drop leading and trailing whitespace. -/
def pyStripL (l : List Char) : List Char :=
  ((l.dropWhile isPyWs).reverse.dropWhile isPyWs).reverse

/-- Python `str.strip()`. -/
def pyStrip (s : String) : String :=
  ⟨pyStripL s.data⟩

/-- Python `str.lower()` (character-wise; the heuristics below only compare
against ASCII needles). -/
def pyLower (s : String) : String :=
  ⟨s.data.map Char.toLower⟩

/-- `needle` occurs as a prefix of `hay`. -/
def startsWithL : List Char → List Char → Bool
  | [], _ => true
  | _ :: _, [] => false
  | a :: as, b :: bs => a = b && startsWithL as bs

/-- `needle` occurs as a contiguous substring of `hay` (Python `in`). -/
def hasSubstrL (needle : List Char) : List Char → Bool
  | [] => startsWithL needle []
  | c :: t => startsWithL needle (c :: t) || hasSubstrL needle t

/-- Python `needle in hay` on strings. -/
def strContains (hay needle : String) : Bool :=
  hasSubstrL needle.data hay.data

/-- Truthiness of a Python optional string (`None` and `""` are falsy). -/
def truthy : Option String → Bool
  | none => false
  | some s => !(s == "")

/-! ### `_has_research_signal` (blog_workflow.py, lines 39–74) -/

/-- The fourteen failure markers checked by `_has_research_signal`. -/
def failure_markers : List String :=
  [ "cannot proceed"
  , "research was not provided"
  , "missing research"
  , "need the research"
  , "no research"
  , "rate limit"
  , "temporarily unavailable"
  , "quota"
  , "i apologize"
  , "cannot write the blog"
  , "without the research"
  , "please provide the research"
  , "unavailable right now"
  , "try again later" ]

/-- The six signal delimiters checked by `_has_research_signal`. -/
def signal_delimiters : List String :=
  ["\n-", "\n1.", "\nbullet", "\n•", "?", ". "]

/-- Embedding of `_has_research_signal`: normalize (strip then lowercase),
reject empty text, any failure marker, length below 40, or no delimiter hit. -/
def _has_research_signal (text : String) : Bool :=
  let normalized := pyLower (pyStrip text)
  if normalized == "" then false
  else if failure_markers.any (fun m => strContains normalized m) then false
  else if normalized.length < 40 then false
  else if (signal_delimiters.filter (fun d => strContains normalized d)).length = 0 then false
  else true

/-! ### `textwrap.shorten` (used by the research fallback for KB snippets) -/

/-- Split a character list into whitespace-separated words (Python `str.split()`
with no argument: runs of whitespace separate words, empties are dropped). -/
def wordsAux (acc : List Char) : List Char → List (List Char)
  | [] => if acc.isEmpty then [] else [acc.reverse]
  | c :: t =>
    if isPyWs c then
      if acc.isEmpty then wordsAux [] t else acc.reverse :: wordsAux [] t
    else wordsAux (c :: acc) t

/-- Python `str.split()` with no argument. -/
def pyWords (s : String) : List String :=
  (wordsAux [] s.data).map (fun l => ⟨l⟩)

/-- Greedy suffix-dropping used by `textwrap.shorten`: drop words from the end
until the remaining words plus the placeholder fit in `width`; if no word
fits, the stripped placeholder is returned. -/
def shortenFit (width : Nat) (ph : String) : List String → String
  | [] => pyStrip ph
  | w :: rest =>
    let cand := String.intercalate " " (w :: rest) ++ ph
    if cand.length ≤ width then cand
    else shortenFit width ph ((w :: rest).dropLast)
termination_by ws => ws.length
decreasing_by
  simp [List.length_dropLast]

/-- Model of Python `textwrap.shorten(s, width, placeholder)`: collapse
whitespace; return the collapsed text if it fits, else truncate on word
boundaries and append the placeholder. -/
def pyShorten (width : Nat) (ph : String) (s : String) : String :=
  let ws := pyWords s
  let joined := String.intercalate " " ws
  if joined.length ≤ width then joined else shortenFit width ph ws

/-! ### Oracle environment for external services

LLM agents and the vector knowledge base are outbound API calls.  They are
modelled as oracles mapping the exact prompt string sent by the code to the
response content.  The researcher is fallible (`Except`) because the code
installs an exception handler around its retry, and its `content` field may be
`None` (the code guards with `or ""`); the knowledge-base search is fallible
because `_structured_fallback_research` catches its exceptions. -/

structure Env where
  topicGen : String → String
  researcher : String → Except String (Option String)
  planner : String → String
  writer : String → String
  optimizer : String → String
  finalizer : String → String
  kbSearch : String → Except String (List String)

/-! ### `_structured_fallback_research` (blog_workflow.py, lines 76–102) -/

/-- The five static sections of the deterministic research fallback, with the
subject spliced in exactly as in the source f-strings. -/
def static_sections (subject : String) : List String :=
  [ "**Market Snapshot**\n- " ++ subject ++
      " is top-of-mind for CMOs focused on profitable growth in 2026.\n- Economic pressure pushes teams to prove clear ROI within two quarters."
  , "**Adoption & Investment**\n- Budgets are shifting toward AI copilots, experimentation platforms, and privacy-safe data foundations that accelerate " ++
      subject ++ ".\n- Leaders fund pilots that shorten campaign launch cycles and unlock measurement at every touchpoint."
  , "**Audience Pain Points**\n- Teams struggle with fragmented data, content bottlenecks, and channel saturation.\n- Decision makers want faster validation, governance guardrails, and proof that " ++
      subject ++ " drives incremental revenue."
  , "**People-Also-Ask Style Questions**\n- How does " ++ subject ++
      " change day-to-day marketing workflows?\n- What KPIs prove success within 90 days?\n- How can smaller teams adopt " ++
      subject ++ " without enterprise budgets?"
  , "**Opportunities & Next Steps**\n- Pair experimentation frameworks with AI summarization to ship insights weekly.\n- Reuse knowledge bases to keep messaging on-brand while scaling " ++
      subject ++ " programs.\n- Align sales, product, and marketing data so every touchpoint reinforces the same answer." ]

/-- Snippet construction for one KB document: replace newlines by spaces,
strip, then `textwrap.shorten(width=280, placeholder="...")`. -/
def kbSnippet (raw : String) : String :=
  pyShorten 280 "..." (pyStrip ⟨raw.data.map (fun c => if c = '\n' then ' ' else c)⟩)

/-- The KB-highlight lines: documents are enumerated from 1 (blank documents
are skipped but still consume their index, as Python `enumerate` does). -/
def kbLines (docs : List String) : List String :=
  docs.enum.filterMap (fun p =>
    if pyStrip p.2 == "" then none
    else some ("- KB Insight " ++ toString (p.1 + 1) ++ ": " ++ kbSnippet p.2))

/-- Embedding of `_structured_fallback_research`: the five static sections,
plus a Knowledge Base Highlights section when the KB search succeeds and
yields non-blank documents (KB exceptions are swallowed). -/
def _structured_fallback_research (env : Env) (subject : String) : String :=
  let lines :=
    match env.kbSearch subject with
    | .error _ => []
    | .ok docs => kbLines docs
  let sections :=
    if lines.isEmpty then static_sections subject
    else static_sections subject ++
      ["**Knowledge Base Highlights**\n" ++ String.intercalate "\n" lines]
  String.intercalate "\n\n" sections

/-! ### The pipeline stage prompts (blog_workflow.py `run`) -/

def topicGenPrompt (prompt : String) : String :=
  "Generate a blog topic for: " ++ prompt

def researchPrompt (topic : String) : String :=
  "Research key facts, statistics, and user questions about: " ++ topic

def fallbackPrompt (topic : String) : String :=
  "Provide a concise research summary for \x27" ++ topic ++
    "\x27. List at least five bullet points covering statistics, audience pain points, and common user questions."

def planPrompt (topic research : String) : String :=
  "Topic: \x27" ++ topic ++ "\x27\n\nResearch:\n" ++ research

def writePrompt (topic plan research : String) : String :=
  "Write the blog for \x27" ++ topic ++ "\x27 using this outline:\n\n" ++ plan ++
    "\n\nResearch:\n" ++ research

def optimizePrompt (draft : String) : String :=
  "Draft:\n" ++ draft

def finalPrompt (draft optimizationReport : String) : String :=
  "Draft:\n" ++ draft ++ "\n\nOptimization Suggestions:\n" ++ optimizationReport ++
    "\n\nProduce the Final Blog Post."

/-! ### The research stage with retry and fallback -/

deriving instance DecidableEq for Except

/-- Result of the research stage: the prompts sent to the researcher agent,
in order, and the research summary (`error` when the initial researcher call
raised — that call is not guarded in the source). -/
structure ResearchResult where
  calls : List String
  summary : Except String String
deriving DecidableEq

/-- Embedding of the research stage of `AEOBlogPipeline.run` (lines 104–123):
one researcher call; on invalid output one retry with the fallback prompt
(whose own exception is swallowed, keeping the previous summary); then the
structured fallback when the summary is still invalid. -/
def researchStage (env : Env) (topic : String) : ResearchResult :=
  match env.researcher (researchPrompt topic) with
  | .error e => ⟨[researchPrompt topic], .error e⟩
  | .ok c0 =>
    let s1 := pyStrip (c0.getD "")
    if _has_research_signal s1 then ⟨[researchPrompt topic], .ok s1⟩
    else
      let s2 :=
        match env.researcher (fallbackPrompt topic) with
        | .ok c1 => pyStrip (c1.getD "")
        | .error _ => s1
      if _has_research_signal s2 then ⟨[researchPrompt topic, fallbackPrompt topic], .ok s2⟩
      else ⟨[researchPrompt topic, fallbackPrompt topic],
            .ok (_structured_fallback_research env topic)⟩

/-! ### The five-stage pipeline and `AEOBlogPipeline.run` -/

inductive StageTag
  | topicGen
  | research
  | plan
  | write
  | optimize
  | finalize
deriving DecidableEq

/-- One LLM stage execution: which stage, the prompt sent, the output. -/
structure Event where
  tag : StageTag
  prompt : String
  output : String
deriving DecidableEq

/-- Python exceptions distinguished by the embedded code. -/
inductive Exc
  | valueError (msg : String)
  | agentFailure (msg : String)
  | attributeError (msg : String)
deriving DecidableEq

/-- `str(e)` for an exception. -/
def Exc.message : Exc → String
  | .valueError m => m
  | .agentFailure m => m
  | .attributeError m => m

/-- The research → plan → write → optimize → finalize sequence of
`AEOBlogPipeline.run` (lines 104–195), returning the finalizer content and
the per-stage trace.  Fails only when the initial researcher call raises. -/
def runPipeline (env : Env) (topic : String) : Except String (String × List Event) :=
  let rr := researchStage env topic
  match rr.summary with
  | .error e => .error e
  | .ok research_summary =>
    let plan := env.planner (planPrompt topic research_summary)
    let draft := env.writer (writePrompt topic plan research_summary)
    let optimization_report := env.optimizer (optimizePrompt draft)
    let final := env.finalizer (finalPrompt draft optimization_report)
    .ok (final,
      [ ⟨.research, researchPrompt topic, research_summary⟩
      , ⟨.plan, planPrompt topic research_summary, plan⟩
      , ⟨.write, writePrompt topic plan research_summary, draft⟩
      , ⟨.optimize, optimizePrompt draft, optimization_report⟩
      , ⟨.finalize, finalPrompt draft optimization_report, final⟩ ])

namespace AEOBlogPipeline

/-- Embedding of `AEOBlogPipeline.run` (blog_workflow.py, lines 16–195):
raise `ValueError` when both arguments are falsy; generate a topic from the
prompt when only a prompt is given; then run the five-stage pipeline. -/
def run (env : Env) (topic? prompt? : Option String) : Except Exc (String × List Event) :=
  if !truthy topic? && !truthy prompt? then
    .error (.valueError "Either \x27topic\x27 or \x27prompt\x27 must be provided.")
  else if truthy prompt? && !truthy topic? then
    let p := prompt?.getD ""
    let genOut := env.topicGen (topicGenPrompt p)
    match runPipeline env (pyStrip genOut) with
    | .error e => .error (.agentFailure e)
    | .ok (r, evs) => .ok (r, ⟨.topicGen, topicGenPrompt p, genOut⟩ :: evs)
  else
    match runPipeline env (topic?.getD "") with
    | .error e => .error (.agentFailure e)
    | .ok res => .ok res

/-- Embedding of `AEOBlogPipeline.generate_topic_only`. -/
def generate_topic_only (env : Env) (prompt : String) : String :=
  pyStrip (env.topicGen (topicGenPrompt prompt))

end AEOBlogPipeline

/-! ### Relational store model

The ORM models module (`aeo_blog_engine/database/models.py`-style code:
`Blog`, `create_blog_entry`, `update_blog_status`, …) is not part of the
provided sources; only its callers in `services.py` and the session manager
are.  The record shape and the CRUD helpers below are therefore modelled from
the spec ("persisting results in a relational store", "the database layer is
a standard ORM CRUD wrapper") and from how `services.py` calls them. -/

/-- One entry of a blog's topic list. -/
structure TopicEntry where
  content : String
  is_prompt_flag : String
  timestamp : Option String
deriving DecidableEq

/-- A blog row of the relational store. -/
structure BlogRec where
  id : Nat
  user_id : String
  company_url : String
  email_id : Option String
  brand_name : Option String
  topic : List TopicEntry
  status : String
  blog_content : Option String
  twitter_post : List String
  linkedin_post : List String
  reddit_post : List String
deriving DecidableEq

/-- The relational store: the blog rows plus the next fresh primary key. -/
structure DB where
  blogs : List BlogRec
  nextId : Nat
deriving DecidableEq

/-- Well-formedness of the store: every row's id is below the fresh key. -/
def DB.wf (db : DB) : Prop :=
  ∀ b ∈ db.blogs, b.id < db.nextId

/-- Find a row by primary key. -/
def DB.findById (db : DB) (i : Nat) : Option BlogRec :=
  db.blogs.find? (fun b => b.id == i)

/-- Write a row back (`session.add` + `flush`): replace the row with the same
id, or insert the row when the id is new. -/
def DB.put (db : DB) (b : BlogRec) : DB :=
  if db.blogs.any (fun r => r.id == b.id) then
    { db with blogs := db.blogs.map (fun r => if r.id == b.id then b else r) }
  else
    { db with blogs := db.blogs ++ [b] }

/-! ### `get_session` (database/session.py, lines 31–41) -/

/-- An open SQLAlchemy session: the committed base state and the pending
working state. -/
structure Session where
  base : DB
  pending : DB
deriving DecidableEq

def Session.begin (db : DB) : Session := ⟨db, db⟩

def Session.commit (s : Session) : DB := s.pending

def Session.rollback (s : Session) : DB := s.base

/-- Lifecycle actions performed on a session. -/
inductive SessAction
  | opened
  | committed
  | rolledBack
  | closed
deriving DecidableEq

/-- The outcome of running a block under `get_session`: the block's result
(or the propagated exception), the resulting committed store, and the session
lifecycle log. -/
structure SessRun (α : Type) where
  result : Except Exc α
  db : DB
  log : List SessAction

/-- Embedding of the `get_session` context manager: open a session, run the
block; commit on normal completion, roll back and re-raise on exception,
close in both cases. -/
def get_session {α : Type} (db : DB) (body : Session → Except Exc (α × Session)) :
    SessRun α :=
  let s := Session.begin db
  match body s with
  | .ok (a, s') => ⟨.ok a, s'.commit, [.opened, .committed, .closed]⟩
  | .error e => ⟨.error e, s.rollback, [.opened, .rolledBack, .closed]⟩

/-! ### Modelled CRUD helpers (callees of services.py not in the sources) -/

/-- Truthiness of a Python value that is `None` or a string. -/
def otruthy : Option String → Bool
  | none => false
  | some s => !(s == "")

namespace Blog

/-- Modelled from the spec: normalizes a blog's stored topic value to a list
of topic entries; in this model topics are already entry lists, so this is
the identity. -/
def ensure_entries (topics : List TopicEntry) : List TopicEntry := topics

/-- Modelled from the spec: the topic strings of a list of topic entries. -/
def entry_contents (topics : List TopicEntry) : List String :=
  topics.map (fun t => t.content)

/-- Modelled from the spec: build one topic entry. -/
def make_entry (content : String) (is_prompt_flag : String) (timestamp : Option String) :
    TopicEntry :=
  ⟨content, is_prompt_flag, timestamp⟩

end Blog

/-- The dictionary form of a blog row (`Blog.to_dict`). -/
structure BlogDict where
  id : Nat
  user_id : String
  company_url : String
  topic : List TopicEntry
  status : String
  blog_content : Option String
  twitter_post : List String
  linkedin_post : List String
  reddit_post : List String
deriving DecidableEq

/-- Modelled from the spec: serialise a blog row to its dictionary form. -/
def Blog.to_dict (b : BlogRec) : BlogDict :=
  ⟨b.id, b.user_id, b.company_url, b.topic, b.status, b.blog_content,
   b.twitter_post, b.linkedin_post, b.reddit_post⟩

/-- Modelled from the spec: look up the blog row for a user and company. -/
def get_blog_by_user_and_company (s : Session) (user_id company_url : String) :
    Option BlogRec :=
  s.pending.blogs.find? (fun b => b.user_id == user_id && b.company_url == company_url)

/-- Modelled from the spec: look up a blog row by primary key. -/
def get_blog_by_id (s : Session) (i : Nat) : Option BlogRec :=
  s.pending.findById i

/-- Modelled from the spec: insert a fresh blog row with the given fields, a
singleton topic list and the given status. -/
def create_blog_entry (s : Session) (user_id topic company_url : String)
    (email_id brand_name : Option String) (status : String)
    (is_prompt_flag : String) (timestamp : Option String) : BlogRec × Session :=
  let b : BlogRec :=
    { id := s.pending.nextId
    , user_id := user_id
    , company_url := company_url
    , email_id := email_id
    , brand_name := brand_name
    , topic := [Blog.make_entry topic is_prompt_flag timestamp]
    , status := status
    , blog_content := none
    , twitter_post := []
    , linkedin_post := []
    , reddit_post := [] }
  (b, { s with pending := { blogs := s.pending.blogs ++ [b], nextId := s.pending.nextId + 1 } })

/-- Modelled from the spec: set the status of the row with the given id, and
its content when one is provided; returns the updated row, or `none` when the
id is absent. -/
def update_blog_status (s : Session) (i : Nat) (status : String)
    (blog_content : Option String) : Option BlogRec × Session :=
  match s.pending.findById i with
  | none => (none, s)
  | some b =>
    let b' := { b with status := status
                     , blog_content := match blog_content with
                                       | some c => some c
                                       | none => b.blog_content }
    (some b', { s with pending := s.pending.put b' })

/-- Modelled from the spec: append a social post's content to the platform's
list on the blog row. -/
def append_social_post (s : Session) (b : BlogRec) (platform content : String) :
    BlogRec × Session :=
  let b' :=
    if platform == "twitter" then { b with twitter_post := b.twitter_post ++ [content] }
    else if platform == "linkedin" then { b with linkedin_post := b.linkedin_post ++ [content] }
    else { b with reddit_post := b.reddit_post ++ [content] }
  (b', { s with pending := s.pending.put b' })

/-! ### `_get_or_create_blog` (services.py, lines 19–49) -/

/-- Embedding of `_get_or_create_blog`: reuse the row for the user and
company, filling missing metadata and appending the topic only when its
string is not already among the entry contents; otherwise create a fresh
PENDING row. -/
def _get_or_create_blog (s : Session) (user_id company_url topic : String)
    (email_id brand_name : Option String) (is_prompt_flag : String)
    (timestamp : Option String) : BlogRec × Session :=
  match get_blog_by_user_and_company s user_id company_url with
  | some blog0 =>
    let blog1 := if otruthy email_id && !otruthy blog0.email_id
                 then { blog0 with email_id := email_id } else blog0
    let blog2 := if otruthy brand_name && !otruthy blog1.brand_name
                 then { blog1 with brand_name := brand_name } else blog1
    let topics := Blog.ensure_entries blog2.topic
    let contents := Blog.entry_contents topics
    let blog3 := if !(topic == "") && !contents.contains topic
                 then { blog2 with topic := topics ++ [Blog.make_entry topic is_prompt_flag timestamp] }
                 else blog2
    (blog3, { s with pending := s.pending.put blog3 })
  | none =>
    create_blog_entry s user_id topic company_url email_id brand_name
      "PENDING" is_prompt_flag timestamp

/-! ### `_process_single_blog` (services.py, lines 52–113) -/

/-- The payload of a single blog-generation request (after the service layer
has fixed a single prompt).  `company_url` and `user_id` are accessed with
`payload[...]` in the source, hence plain strings here. -/
structure Payload where
  topic : Option String
  prompt : Option String
  company_url : String
  user_id : String
  email_id : Option String
  brand_name : Option String
  is_prompt_field : Option String
  timestamp : Option String
deriving DecidableEq

/-- Embedding of `_process_single_blog`: resolve the topic (generating one
from the prompt when needed), create or reuse the blog row in a first
transaction, run the pipeline, then record COMPLETED/FAILED in a second
transaction, returning the updated row's dictionary or re-raising. -/
def _process_single_blog (env : Env) (db : DB) (p : Payload) :
    Except Exc BlogDict × DB :=
  if !truthy p.topic && !truthy p.prompt then
    (.error (.valueError "Missing required field: \x27topic\x27 or \x27prompt\x27"), db)
  else
    let topic0 :=
      if truthy p.prompt && !truthy p.topic then
        AEOBlogPipeline.generate_topic_only env (p.prompt.getD "")
      else p.topic.getD ""
    if pyStrip topic0 == "" then
      (.error (.valueError "Topic is missing or could not be generated from prompt."), db)
    else
      let topic := pyStrip topic0
      let company_url := pyStrip p.company_url
      let user_id := pyStrip p.user_id
      let iprFlag := if truthy p.prompt then "true" else p.is_prompt_field.getD "false"
      let r1 := get_session db (fun s =>
        let (b, s') := _get_or_create_blog s user_id company_url topic
          p.email_id p.brand_name iprFlag p.timestamp
        .ok (b, s'))
      match r1.result with
      | .error e => (.error e, r1.db)
      | .ok blogEntry =>
        match AEOBlogPipeline.run env (some topic) none with
        | .ok (blog_content, _) =>
          let r2 := get_session r1.db (fun s =>
            match update_blog_status s blogEntry.id "COMPLETED" (some blog_content) with
            | (some updated, s') => .ok (Blog.to_dict updated, s')
            | (none, _) => .error (.attributeError "NoneType object has no attribute to_dict"))
          (r2.result, r2.db)
        | .error e =>
          let r3 := get_session r1.db (fun s =>
            let (_, s') := update_blog_status s blogEntry.id "FAILED" none
            .ok ((), s'))
          (.error e, r3.db)

/-! ### `generate_and_store_blog` (services.py, lines 116–162) -/

/-- The prompt field of an incoming payload.  The `ast`/`json` parsing of a
stringified list in the source is abstracted: a prompt that is, or parses to,
a list is represented by `multi`. -/
inductive PromptField
  | missing
  | single (s : String)
  | multi (l : List String)
deriving DecidableEq

/-- The raw payload of the `POST /blogs` service entry point. -/
structure RawPayload where
  topic : Option String
  prompt : PromptField
  company_url : Option String
  user_id : Option String
  email_id : Option String
  brand_name : Option String
  is_prompt_field : Option String
  timestamp : Option String
deriving DecidableEq

/-- The single-blog payload built from a raw payload with a chosen prompt
value and topic value. -/
def RawPayload.toPayload (rp : RawPayload) (prompt topic : Option String) : Payload :=
  { topic := topic
  , prompt := prompt
  , company_url := rp.company_url.getD ""
  , user_id := rp.user_id.getD ""
  , email_id := rp.email_id
  , brand_name := rp.brand_name
  , is_prompt_field := rp.is_prompt_field
  , timestamp := rp.timestamp }

/-- One entry of the result list of a multi-prompt request: the dictionary of
a processed blog, or the error dictionary of a failed item. -/
inductive BlogResult
  | done (d : BlogDict)
  | failed (prompt : String) (error : String) (status : String)
deriving DecidableEq

/-- The value returned by `generate_and_store_blog`. -/
inductive GenResult
  | single (d : BlogDict)
  | many (l : List BlogResult)
deriving DecidableEq

/-- The per-prompt loop of `generate_and_store_blog`: each prompt is processed
with the topic cleared; an item whose processing raises contributes an error
dictionary and the loop continues. -/
def processPrompts (env : Env) (rp : RawPayload) : DB → List String → List BlogResult × DB
  | db, [] => ([], db)
  | db, pr :: rest =>
    let (r, db') := _process_single_blog env db (rp.toPayload (some pr) none)
    let item := match r with
      | .ok d => BlogResult.done d
      | .error e => BlogResult.failed pr e.message "FAILED"
    let (items, db'') := processPrompts env rp db' rest
    (item :: items, db'')

/-- Embedding of `generate_and_store_blog`: validate `company_url` and
`user_id`, then process a list of prompts item by item (collecting per-item
failures) or a single payload. -/
def generate_and_store_blog (env : Env) (db : DB) (rp : RawPayload) :
    Except Exc GenResult × DB :=
  if !otruthy rp.company_url then
    (.error (.valueError "Missing required field: \x27company_url\x27"), db)
  else if !otruthy rp.user_id then
    (.error (.valueError "Missing required field: \x27user_id\x27"), db)
  else
    match rp.prompt with
    | .multi l =>
      let (items, db') := processPrompts env rp db l
      (.ok (.many items), db')
    | .single s =>
      let (r, db') := _process_single_blog env db (rp.toPayload (some s) rp.topic)
      (r.map .single, db')
    | .missing =>
      let (r, db') := _process_single_blog env db (rp.toPayload none rp.topic)
      (r.map .single, db')

/-! ### `fetch_blog_by_user` and the latest-blog endpoints (api.py 38–84) -/

/-- Embedding of `fetch_blog_by_user`: the dictionary of the user's blog, or
`none`. -/
def fetch_blog_by_user (db : DB) (user_id company_url : String) : Option BlogDict :=
  let r := get_session db (fun s =>
    match get_blog_by_user_and_company s user_id company_url with
    | none => .ok ((none : Option BlogDict), s)
    | some b => .ok (some (Blog.to_dict b), s))
  match r.result with
  | .ok v => v
  | .error _ => none

/-- A JSON response body of the latest-blog endpoints. -/
inductive RespBody
  | err (msg : String)
  | obj (d : BlogDict)
  | topicObj (topic : List TopicEntry)
  | socialObj (twitter linkedin reddit : List String)
deriving DecidableEq

/-- Embedding of `GET /blogs/latest`. -/
def get_latest_blog_full (db : DB) (user_id company_url : Option String) :
    Nat × RespBody :=
  if !otruthy user_id || !otruthy company_url then
    (400, .err "Missing user_id or company_url parameters")
  else
    match fetch_blog_by_user db (user_id.getD "") (company_url.getD "") with
    | none => (404, .err "Blog not found")
    | some d => (200, .obj d)

/-- Embedding of `GET /blogs/latest/topic`. -/
def get_latest_blog_topic (db : DB) (user_id company_url : Option String) :
    Nat × RespBody :=
  if !otruthy user_id || !otruthy company_url then
    (400, .err "Missing user_id or company_url parameters")
  else
    match fetch_blog_by_user db (user_id.getD "") (company_url.getD "") with
    | none => (404, .err "Blog not found")
    | some d => (200, .topicObj d.topic)

/-- Embedding of `GET /blogs/latest/social`. -/
def get_latest_blog_social (db : DB) (user_id company_url : Option String) :
    Nat × RespBody :=
  if !otruthy user_id || !otruthy company_url then
    (400, .err "Missing user_id or company_url parameters")
  else
    match fetch_blog_by_user db (user_id.getD "") (company_url.getD "") with
    | none => (404, .err "Blog not found")
    | some d => (200, .socialObj d.twitter_post d.linkedin_post d.reddit_post)

/-! ## Concrete oracle environments used in witnesses and counterexamples -/

/-- An environment whose agents all answer with fixed strings and whose
knowledge base is empty. -/
def stubEnv : Env :=
  { topicGen := fun _ => " My Topic "
  , researcher := fun _ => .ok (some "Research findings: statistics are up. Users ask questions? Yes. ")
  , planner := fun _ => "PLAN"
  , writer := fun _ => "DRAFT"
  , optimizer := fun _ => "OPT"
  , finalizer := fun _ => "FINAL"
  , kbSearch := fun _ => .ok [] }

/-- An environment whose researcher raises on every call. -/
def failEnv : Env :=
  { stubEnv with researcher := fun _ => .error "upstream researcher exception" }

/-- An environment whose knowledge base returns one non-blank document. -/
def kbDemoEnv : Env :=
  { stubEnv with kbSearch := fun _ => .ok ["Fresh KB insight about adoption"] }

/-! ## Theorems -/

/-- **C4.** `_has_research_signal` is pure string matching: it returns `true`
iff the stripped, lowercased text is non-empty, contains none of the fourteen
failure markers, has length at least 40, and contains at least one of the six
signal delimiters; and it returns `false` on every whitespace-only input. -/
theorem has_research_signal_spec :
    (∀ text : String,
       _has_research_signal text = true ↔
         (pyLower (pyStrip text) ≠ "" ∧
          (∀ m ∈ failure_markers, strContains (pyLower (pyStrip text)) m = false) ∧
          40 ≤ (pyLower (pyStrip text)).length ∧
          (∃ d ∈ signal_delimiters, strContains (pyLower (pyStrip text)) d = true)))
    ∧ failure_markers.length = 14
    ∧ signal_delimiters.length = 6
    ∧ (∀ text : String, text.data.all isPyWs = true → _has_research_signal text = false) := by
  refine ⟨fun text => ?_, rfl, rfl, fun text h => ?_⟩
  · simp only [_has_research_signal]
    split_ifs with h1 h2 h3 h4
    · simp only [beq_iff_eq] at h1
      simp [h1]
    · constructor
      · intro h
        exact absurd h (by simp)
      · rintro ⟨-, hm, -, -⟩
        rw [List.any_eq_true] at h2
        obtain ⟨m, hmem, hc⟩ := h2
        exact absurd (hm m hmem) (by simp [hc])
    · constructor
      · intro h
        exact absurd h (by simp)
      · rintro ⟨-, -, hlen, -⟩
        omega
    · constructor
      · intro h
        exact absurd h (by simp)
      · rintro ⟨-, -, -, d, hd, hc⟩
        rw [List.length_eq_zero, List.filter_eq_nil_iff] at h4
        exact h4 d hd (by simp [hc])
    · constructor
      · intro _
        refine ⟨by simpa [beq_iff_eq] using h1, ?_, by omega, ?_⟩
        · intro m hm
          rw [List.any_eq_true] at h2
          push_neg at h2
          have := h2 m hm
          simpa using this
        · rw [List.length_eq_zero, List.filter_eq_nil_iff] at h4
          push_neg at h4
          obtain ⟨d, hd, hc⟩ := h4
          exact ⟨d, hd, by simpa using hc⟩
      · intro _
        rfl
  · have hall : ∀ c ∈ text.data, isPyWs c := by
      intro c hc
      exact List.all_eq_true.mp h c hc
    have hdrop : text.data.dropWhile isPyWs = [] :=
      List.dropWhile_eq_nil_iff.mpr hall
    simp [_has_research_signal, pyLower, pyStrip, pyStripL, hdrop]

/-- Application of C4's whitespace clause at a concrete input. -/
theorem has_research_signal_spec_witness : _has_research_signal " \t\n " = false :=
  has_research_signal_spec.2.2.2 " \t\n " (by decide)

/-- **C3 (amended).** `_structured_fallback_research` is determined by the
subject *and* the knowledge-base search result: it equals the fixed
five-section template exactly when the KB search raises or yields no usable
line, and otherwise appends a Knowledge Base Highlights section; two calls
agree whenever the KB search result agrees. -/
theorem structured_fallback_research_spec :
    ∀ (env : Env) (subject : String),
      (∀ e, env.kbSearch subject = .error e →
         _structured_fallback_research env subject =
           String.intercalate "\n\n" (static_sections subject)) ∧
      (∀ docs, env.kbSearch subject = .ok docs → kbLines docs = [] →
         _structured_fallback_research env subject =
           String.intercalate "\n\n" (static_sections subject)) ∧
      (∀ docs, env.kbSearch subject = .ok docs → kbLines docs ≠ [] →
         _structured_fallback_research env subject =
           String.intercalate "\n\n" (static_sections subject ++
             ["**Knowledge Base Highlights**\n" ++ String.intercalate "\n" (kbLines docs)])) ∧
      (∀ env2 : Env, env2.kbSearch subject = env.kbSearch subject →
         _structured_fallback_research env2 subject =
           _structured_fallback_research env subject) := by
  intro env subject
  refine ⟨fun e he => ?_, fun docs hd hnil => ?_, fun docs hd hnil => ?_, fun env2 he => ?_⟩
  · simp [_structured_fallback_research, he]
  · simp [_structured_fallback_research, hd, hnil]
  · simp [_structured_fallback_research, hd, hnil]
  · simp [_structured_fallback_research, he]

set_option maxRecDepth 2000 in
/-- Application of C3's amended statement at concrete inputs. -/
theorem structured_fallback_research_spec_witness :
    _structured_fallback_research stubEnv "AI marketing" =
      String.intercalate "\n\n" (static_sections "AI marketing") ∧
    _structured_fallback_research kbDemoEnv "AI marketing" =
      String.intercalate "\n\n" (static_sections "AI marketing" ++
        ["**Knowledge Base Highlights**\n" ++ String.intercalate "\n"
          (kbLines ["Fresh KB insight about adoption"])]) :=
  ⟨(structured_fallback_research_spec stubEnv "AI marketing").2.1 [] rfl rfl,
   (structured_fallback_research_spec kbDemoEnv "AI marketing").2.2.1
     ["Fresh KB insight about adoption"] rfl (by decide)⟩

set_option maxRecDepth 2000 in
/-- **C3 counterexample.** With a non-empty knowledge base the fallback text
is *not* the five-section template, and external state changes the output for
the same subject. -/
theorem structured_fallback_research_counterexample :
    _structured_fallback_research kbDemoEnv "AI marketing" ≠
      String.intercalate "\n\n" (static_sections "AI marketing") ∧
    _structured_fallback_research kbDemoEnv "AI marketing" ≠
      _structured_fallback_research stubEnv "AI marketing" := by
  have hk : kbLines ["Fresh KB insight about adoption"] =
      ["- KB Insight 1: Fresh KB insight about adoption"] := by decide
  have hk2 : "**Knowledge Base Highlights**\n" ++
      String.intercalate "\n" ["- KB Insight 1: Fresh KB insight about adoption"] =
      "**Knowledge Base Highlights**\n- KB Insight 1: Fresh KB insight about adoption" := by
    decide
  have h1 : _structured_fallback_research kbDemoEnv "AI marketing" =
      String.intercalate "\n\n" (static_sections "AI marketing" ++
        ["**Knowledge Base Highlights**\n- KB Insight 1: Fresh KB insight about adoption"]) := by
    simp [_structured_fallback_research, kbDemoEnv, stubEnv, hk, hk2]
  have h2 : _structured_fallback_research stubEnv "AI marketing" =
      String.intercalate "\n\n" (static_sections "AI marketing") := by
    simp [_structured_fallback_research, stubEnv, kbLines]
  have hne : String.intercalate "\n\n" (static_sections "AI marketing" ++
        ["**Knowledge Base Highlights**\n- KB Insight 1: Fresh KB insight about adoption"]) ≠
      String.intercalate "\n\n" (static_sections "AI marketing") := by
    intro h
    have hl := congrArg String.length h
    simp only [static_sections, List.cons_append, List.nil_append, String.intercalate,
      String.intercalate.go, String.length_append] at hl
    have hsep : ("\n\n" : String).length = 2 := rfl
    omega
  exact ⟨by rw [h1]; exact hne, by rw [h1, h2]; exact hne⟩

/-- **C1.** Whenever `AEOBlogPipeline.run` is given a (truthy) topic and
returns normally, it executes exactly the five stages research, plan, write,
optimize, finalize, in that order; each stage's prompt is built from the
outputs of the earlier stages, and the returned value is the finalizer's
content. -/
theorem run_five_stage_order :
    ∀ (env : Env) (topic : String) (prompt? : Option String) (r : String)
      (evs : List Event),
      topic ≠ "" →
      AEOBlogPipeline.run env (some topic) prompt? = .ok (r, evs) →
      ∃ research_summary plan draft optimization_report,
        (researchStage env topic).summary = .ok research_summary ∧
        plan = env.planner (planPrompt topic research_summary) ∧
        draft = env.writer (writePrompt topic plan research_summary) ∧
        optimization_report = env.optimizer (optimizePrompt draft) ∧
        r = env.finalizer (finalPrompt draft optimization_report) ∧
        evs = [ ⟨.research, researchPrompt topic, research_summary⟩
              , ⟨.plan, planPrompt topic research_summary, plan⟩
              , ⟨.write, writePrompt topic plan research_summary, draft⟩
              , ⟨.optimize, optimizePrompt draft, optimization_report⟩
              , ⟨.finalize, finalPrompt draft optimization_report, r⟩ ] ∧
        evs.map (fun e => e.tag) = [.research, .plan, .write, .optimize, .finalize] := by
  intro env topic prompt? r evs ht h
  have htr : truthy (some topic) = true := by
    simp [truthy, ht]
  rw [AEOBlogPipeline.run] at h
  simp [htr] at h
  rcases hrp : runPipeline env topic with e | res
  · rw [hrp] at h
    simp at h
  · rw [hrp] at h
    simp only [Except.ok.injEq] at h
    rw [runPipeline] at hrp
    cases hs : (researchStage env topic).summary with
    | error e =>
      rw [hs] at hrp
      simp at hrp
    | ok rs =>
      rw [hs] at hrp
      simp only [Except.ok.injEq] at hrp
      rw [← hrp] at h
      simp only [Prod.mk.injEq] at h
      obtain ⟨hr, hevs⟩ := h
      subst hr
      subst hevs
      exact ⟨rs, _, _, _, rfl, rfl, rfl, rfl, rfl, rfl, rfl⟩

set_option maxRecDepth 4000 in
/-- Application of C1 at a concrete environment and topic. -/
theorem run_five_stage_order_witness :
    ∃ research_summary plan draft optimization_report,
      (researchStage stubEnv "Topic T").summary = .ok research_summary ∧
      plan = stubEnv.planner (planPrompt "Topic T" research_summary) ∧
      draft = stubEnv.writer (writePrompt "Topic T" plan research_summary) ∧
      optimization_report = stubEnv.optimizer (optimizePrompt draft) ∧
      "FINAL" = stubEnv.finalizer (finalPrompt draft optimization_report) ∧
      [ (⟨.research, researchPrompt "Topic T",
           "Research findings: statistics are up. Users ask questions? Yes."⟩ : Event)
      , ⟨.plan, planPrompt "Topic T"
           "Research findings: statistics are up. Users ask questions? Yes.", "PLAN"⟩
      , ⟨.write, writePrompt "Topic T" "PLAN"
           "Research findings: statistics are up. Users ask questions? Yes.", "DRAFT"⟩
      , ⟨.optimize, optimizePrompt "DRAFT", "OPT"⟩
      , ⟨.finalize, finalPrompt "DRAFT" "OPT", "FINAL"⟩ ] =
        [ ⟨.research, researchPrompt "Topic T", research_summary⟩
        , ⟨.plan, planPrompt "Topic T" research_summary, plan⟩
        , ⟨.write, writePrompt "Topic T" plan research_summary, draft⟩
        , ⟨.optimize, optimizePrompt draft, optimization_report⟩
        , ⟨.finalize, finalPrompt draft optimization_report, "FINAL"⟩ ] ∧
      ([ (⟨.research, researchPrompt "Topic T",
            "Research findings: statistics are up. Users ask questions? Yes."⟩ : Event)
       , ⟨.plan, planPrompt "Topic T"
            "Research findings: statistics are up. Users ask questions? Yes.", "PLAN"⟩
       , ⟨.write, writePrompt "Topic T" "PLAN"
            "Research findings: statistics are up. Users ask questions? Yes.", "DRAFT"⟩
       , ⟨.optimize, optimizePrompt "DRAFT", "OPT"⟩
       , ⟨.finalize, finalPrompt "DRAFT" "OPT", "FINAL"⟩ ] : List Event).map
          (fun e => e.tag) =
        [.research, .plan, .write, .optimize, .finalize] :=
  run_five_stage_order stubEnv "Topic T" none "FINAL"
    [ ⟨.research, researchPrompt "Topic T",
         "Research findings: statistics are up. Users ask questions? Yes."⟩
    , ⟨.plan, planPrompt "Topic T"
         "Research findings: statistics are up. Users ask questions? Yes.", "PLAN"⟩
    , ⟨.write, writePrompt "Topic T" "PLAN"
         "Research findings: statistics are up. Users ask questions? Yes.", "DRAFT"⟩
    , ⟨.optimize, optimizePrompt "DRAFT", "OPT"⟩
    , ⟨.finalize, finalPrompt "DRAFT" "OPT", "FINAL"⟩ ]
    (by decide) (by decide)

/-- **C2 (amended).** Provided the *initial* researcher call returns a
response (rather than raising), the research stage never fails: when the
first output flunks `_has_research_signal`, the researcher is re-invoked
exactly once with the fixed fallback prompt, and when the retried output also
flunks validation — or the retry itself raises — the canned
`_structured_fallback_research` text becomes the research summary. -/
theorem research_stage_retry_spec :
    ∀ (env : Env) (topic : String) (c0 : Option String),
      env.researcher (researchPrompt topic) = .ok c0 →
      ((∃ rs, (researchStage env topic).summary = .ok rs) ∧
       (_has_research_signal (pyStrip (c0.getD "")) = true →
          researchStage env topic =
            ⟨[researchPrompt topic], .ok (pyStrip (c0.getD ""))⟩) ∧
       (_has_research_signal (pyStrip (c0.getD "")) = false →
          (researchStage env topic).calls = [researchPrompt topic, fallbackPrompt topic] ∧
          (∀ c1, env.researcher (fallbackPrompt topic) = .ok c1 →
             _has_research_signal (pyStrip (c1.getD "")) = true →
             (researchStage env topic).summary = .ok (pyStrip (c1.getD ""))) ∧
          (∀ c1, env.researcher (fallbackPrompt topic) = .ok c1 →
             _has_research_signal (pyStrip (c1.getD "")) = false →
             (researchStage env topic).summary =
               .ok (_structured_fallback_research env topic)) ∧
          (∀ e, env.researcher (fallbackPrompt topic) = .error e →
             (researchStage env topic).summary =
               .ok (_structured_fallback_research env topic)))) := by
  intro env topic c0 h0
  rw [researchStage, h0]
  by_cases h1 : _has_research_signal (pyStrip (c0.getD "")) = true
  · refine ⟨⟨pyStrip (c0.getD ""), by simp [h1]⟩, fun _ => by simp [h1], fun hf => ?_⟩
    rw [h1] at hf
    exact absurd hf (by simp)
  · have h1f : _has_research_signal (pyStrip (c0.getD "")) = false := by
      simpa using h1
    refine ⟨?_, fun ht => absurd ht (by simp [h1f]), fun _ => ⟨?_, ?_, ?_, ?_⟩⟩
    · cases hr : env.researcher (fallbackPrompt topic) with
      | ok c1 =>
        by_cases h2 : _has_research_signal (pyStrip (c1.getD "")) = true
        · exact ⟨pyStrip (c1.getD ""), by simp [h1f, hr, h2]⟩
        · exact ⟨_structured_fallback_research env topic,
            by simp [h1f, hr, by simpa using h2]⟩
      | error e =>
        exact ⟨_structured_fallback_research env topic, by simp [h1f, hr]⟩
    · cases hr : env.researcher (fallbackPrompt topic) with
      | ok c1 =>
        by_cases h2 : _has_research_signal (pyStrip (c1.getD "")) = true
        · simp [h1f, hr, h2]
        · simp [h1f, hr, by simpa using h2]
      | error e => simp [h1f, hr]
    · intro c1 hr h2
      simp [h1f, hr, h2]
    · intro c1 hr h2
      simp [h1f, hr, h2]
    · intro e hr
      simp [h1f, hr]

/-- Application of C2's amended statement at a concrete environment. -/
theorem research_stage_retry_spec_witness :
    (∃ rs, (researchStage stubEnv "Topic T").summary = .ok rs) ∧
    (researchStage { stubEnv with researcher := fun _ => .ok (some "bad") }
        "Topic T").calls =
      [researchPrompt "Topic T", fallbackPrompt "Topic T"] := by
  constructor
  · exact (research_stage_retry_spec stubEnv "Topic T"
      (some "Research findings: statistics are up. Users ask questions? Yes. ") rfl).1
  · exact ((research_stage_retry_spec
      { stubEnv with researcher := fun _ => .ok (some "bad") } "Topic T"
      (some "bad") rfl).2.2 (by decide)).1

/-- **C2 counterexample.** When the initial researcher call raises, the
exception propagates out of `AEOBlogPipeline.run`: the research stage *can*
cause the run to fail, and no research summary reaches the plan stage. -/
theorem research_stage_failure_counterexample :
    AEOBlogPipeline.run failEnv (some "Answer Engine Optimization") none =
      .error (.agentFailure "upstream researcher exception") ∧
    (researchStage failEnv "Answer Engine Optimization").summary =
      .error "upstream researcher exception" := by
  constructor <;> rfl

/-- **C5.** `AEOBlogPipeline.run` raises `ValueError` exactly when both the
topic and the prompt are absent (falsy); and when only a prompt is given, a
topic is generated from the prompt first and the five-stage pipeline then
runs on that generated topic (with the topic-generation event prepended to
the trace). -/
theorem run_argument_validation :
    ∀ (env : Env) (topic? prompt? : Option String),
      ((∃ m, AEOBlogPipeline.run env topic? prompt? = .error (.valueError m)) ↔
         (truthy topic? = false ∧ truthy prompt? = false)) ∧
      (∀ p, prompt? = some p → truthy topic? = false → truthy prompt? = true →
         AEOBlogPipeline.run env topic? prompt? =
           (match runPipeline env (AEOBlogPipeline.generate_topic_only env p) with
            | .error e => .error (.agentFailure e)
            | .ok (r, evs) =>
              .ok (r, ⟨.topicGen, topicGenPrompt p, env.topicGen (topicGenPrompt p)⟩ :: evs))) := by
  intro env topic? prompt?
  constructor
  · constructor
    · rintro ⟨m, hm⟩
      by_contra hc
      rw [AEOBlogPipeline.run] at hm
      rcases ht : truthy topic? with _ | _ <;> rcases hp : truthy prompt? with _ | _ <;>
        rw [ht, hp] at hm
      · exact hc ⟨ht, hp⟩
      all_goals
        simp only [Bool.not_false, Bool.not_true, Bool.and_self, Bool.true_and,
          Bool.and_true, Bool.false_and, Bool.and_false] at hm
      all_goals
        simp at hm
      all_goals
        split at hm <;> simp_all
    · rintro ⟨ht, hp⟩
      refine ⟨"Either \x27topic\x27 or \x27prompt\x27 must be provided.", ?_⟩
      rw [AEOBlogPipeline.run, ht, hp]
      rfl
  · intro p hp ht htp
    subst hp
    rw [AEOBlogPipeline.run, ht, htp]
    rfl

/-- Application of C5 at concrete inputs: both arguments absent raises
`ValueError`; a prompt alone generates a topic and then runs the pipeline. -/
theorem run_argument_validation_witness :
    (∃ m, AEOBlogPipeline.run stubEnv none none = .error (.valueError m)) ∧
    AEOBlogPipeline.run stubEnv none (some "write about AEO") =
      (match runPipeline stubEnv
          (AEOBlogPipeline.generate_topic_only stubEnv "write about AEO") with
       | .error e => .error (.agentFailure e)
       | .ok (r, evs) =>
         .ok (r, ⟨.topicGen, topicGenPrompt "write about AEO",
                  stubEnv.topicGen (topicGenPrompt "write about AEO")⟩ :: evs)) :=
  ⟨(run_argument_validation stubEnv none none).1.mpr ⟨rfl, rfl⟩,
   (run_argument_validation stubEnv none (some "write about AEO")).2
     "write about AEO" rfl rfl (by decide)⟩

/-- **C8.** `get_session` is transactional: a block that completes normally
is committed (its pending writes become the new store), a block that raises
is rolled back (the store is unchanged) and the same exception propagates;
the session is closed in both cases. -/
theorem get_session_transactional :
    ∀ (α : Type) (db : DB) (body : Session → Except Exc (α × Session)),
      (∀ a s', body (Session.begin db) = .ok (a, s') →
         get_session db body =
           ⟨.ok a, s'.pending, [.opened, .committed, .closed]⟩) ∧
      (∀ e, body (Session.begin db) = .error e →
         get_session db body = ⟨.error e, db, [.opened, .rolledBack, .closed]⟩) ∧
      (get_session db body).log.getLast? = some .closed := by
  intro α db body
  refine ⟨fun a s' h => ?_, fun e h => ?_, ?_⟩
  · rw [get_session, h]
    rfl
  · rw [get_session, h]
    rfl
  · rw [get_session]
    cases body (Session.begin db) with
    | ok p => rfl
    | error e => rfl

/-- Application of C8: a committing block and a raising block on a concrete
store. -/
theorem get_session_transactional_witness :
    get_session (DB.mk [] 0) (fun s => .ok (7, s)) =
      ⟨.ok 7, (Session.begin (DB.mk [] 0)).pending, [.opened, .committed, .closed]⟩ ∧
    get_session (DB.mk [] 0)
        (fun _ => (.error (.valueError "boom") : Except Exc (Nat × Session))) =
      ⟨.error (.valueError "boom"), DB.mk [] 0, [.opened, .rolledBack, .closed]⟩ :=
  ⟨(get_session_transactional Nat (DB.mk [] 0) (fun s => .ok (7, s))).1
      7 (Session.begin (DB.mk [] 0)) rfl,
   (get_session_transactional Nat (DB.mk [] 0)
      (fun _ => .error (.valueError "boom"))).2.1 (.valueError "boom") rfl⟩

/-- **C7.** The three latest-blog endpoints validate identically: status 400
exactly when `user_id` or `company_url` is missing (falsy), status 404 when
both are present but no blog exists for the pair, and otherwise status 200
with the requested projection of the blog dictionary. -/
theorem latest_blog_endpoints_validation :
    ∀ (db : DB) (u c : Option String),
      ((otruthy u = false ∨ otruthy c = false) →
         get_latest_blog_full db u c = (400, .err "Missing user_id or company_url parameters") ∧
         get_latest_blog_topic db u c = (400, .err "Missing user_id or company_url parameters") ∧
         get_latest_blog_social db u c = (400, .err "Missing user_id or company_url parameters")) ∧
      (otruthy u = true → otruthy c = true →
         fetch_blog_by_user db (u.getD "") (c.getD "") = none →
         get_latest_blog_full db u c = (404, .err "Blog not found") ∧
         get_latest_blog_topic db u c = (404, .err "Blog not found") ∧
         get_latest_blog_social db u c = (404, .err "Blog not found")) ∧
      (∀ d, otruthy u = true → otruthy c = true →
         fetch_blog_by_user db (u.getD "") (c.getD "") = some d →
         get_latest_blog_full db u c = (200, .obj d) ∧
         get_latest_blog_topic db u c = (200, .topicObj d.topic) ∧
         get_latest_blog_social db u c =
           (200, .socialObj d.twitter_post d.linkedin_post d.reddit_post)) ∧
      ((get_latest_blog_full db u c).1 = 400 ↔
         (otruthy u = false ∨ otruthy c = false)) ∧
      ((get_latest_blog_full db u c).1 = 404 ↔
         (otruthy u = true ∧ otruthy c = true ∧
          fetch_blog_by_user db (u.getD "") (c.getD "") = none)) ∧
      ((get_latest_blog_full db u c).1 = 200 ↔
         (otruthy u = true ∧ otruthy c = true ∧
          ∃ d, fetch_blog_by_user db (u.getD "") (c.getD "") = some d)) := by
  intro db u c
  rcases hu : otruthy u with _ | _ <;> rcases hc : otruthy c with _ | _
  case false.false | false.true | true.false =>
    refine ⟨fun _ => ?_, ?_, ?_, ?_, ?_, ?_⟩ <;>
      simp [get_latest_blog_full, get_latest_blog_topic, get_latest_blog_social, hu, hc]
  case true.true =>
    rcases hf : fetch_blog_by_user db (u.getD "") (c.getD "") with _ | d <;>
      refine ⟨fun h => ?_, fun _ _ h => ?_, fun d' _ _ h => ?_, ?_, ?_, ?_⟩ <;>
      simp_all [get_latest_blog_full, get_latest_blog_topic, get_latest_blog_social]

/-- Application of C7 on a concrete store with one blog row. -/
theorem latest_blog_endpoints_validation_witness :
    (get_latest_blog_full (DB.mk [] 0) none (some "c.com") =
       (400, .err "Missing user_id or company_url parameters") ∧
     get_latest_blog_topic (DB.mk [] 0) none (some "c.com") =
       (400, .err "Missing user_id or company_url parameters") ∧
     get_latest_blog_social (DB.mk [] 0) none (some "c.com") =
       (400, .err "Missing user_id or company_url parameters")) ∧
    (get_latest_blog_full (DB.mk [] 0) (some "u1") (some "c.com") =
       (404, .err "Blog not found") ∧
     get_latest_blog_topic (DB.mk [] 0) (some "u1") (some "c.com") =
       (404, .err "Blog not found") ∧
     get_latest_blog_social (DB.mk [] 0) (some "u1") (some "c.com") =
       (404, .err "Blog not found")) :=
  ⟨(latest_blog_endpoints_validation (DB.mk [] 0) none (some "c.com")).1
      (Or.inl rfl),
   (latest_blog_endpoints_validation (DB.mk [] 0) (some "u1") (some "c.com")).2.1
      rfl rfl rfl⟩

/-! ### Store lemmas shared by the persistence theorems -/

/-- After replacing the row with a matching id, looking the id up finds the
replacement. -/
lemma find?_map_replace (b : BlogRec) :
    ∀ (l : List BlogRec), l.any (fun r => r.id == b.id) = true →
      (l.map (fun r => if r.id == b.id then b else r)).find?
        (fun r => r.id == b.id) = some b := by
  intro l
  induction l with
  | nil => intro h; simp at h
  | cons r t ih =>
    intro h
    rw [List.map_cons]
    by_cases hr : (r.id == b.id) = true
    · rw [if_pos hr]
      exact List.find?_cons_of_pos _ (by simp)
    · rw [if_neg hr]
      have hstep : List.find? (fun r => r.id == b.id)
          (r :: List.map (fun r => if r.id == b.id then b else r) t) =
          List.find? (fun r => r.id == b.id)
            (List.map (fun r => if r.id == b.id then b else r) t) :=
        List.find?_cons_of_neg _ hr
      rw [hstep]
      apply ih
      have hr' : (r.id == b.id) = false := by simpa using hr
      simpa [hr'] using h

/-- Appending a row whose id is fresh for the list, then looking the id up,
finds the appended row. -/
lemma find?_append_fresh (b : BlogRec) :
    ∀ (l : List BlogRec), l.any (fun r => r.id == b.id) = false →
      (l ++ [b]).find? (fun r => r.id == b.id) = some b := by
  intro l
  induction l with
  | nil => intro _; simp
  | cons r t ih =>
    intro h
    have hr : (r.id == b.id) = false := by
      rcases List.any_eq_false.mp h with hall
      simpa using hall r (by simp)
    have ht : t.any (fun r => r.id == b.id) = false := by
      rw [List.any_eq_false] at h ⊢
      intro x hx
      exact h x (by simp [hx])
    simpa [hr] using ih ht

/-- `DB.put` always makes its row findable by id. -/
lemma findById_put (db : DB) (b : BlogRec) :
    (db.put b).findById b.id = some b := by
  rw [DB.put]
  by_cases hany : db.blogs.any (fun r => r.id == b.id) = true
  · simp only [hany, if_true]
    exact find?_map_replace b db.blogs hany
  · have hany' : db.blogs.any (fun r => r.id == b.id) = false := by simpa using hany
    simp only [hany', Bool.false_eq_true, if_false]
    exact find?_append_fresh b db.blogs hany'

/-- In a well-formed store, a row created with the fresh id is findable. -/
lemma findById_fresh (db : DB) (b : BlogRec) (hwf : db.wf) (hid : b.id = db.nextId) :
    DB.findById ⟨db.blogs ++ [b], db.nextId + 1⟩ b.id = some b := by
  rw [DB.findById]
  apply find?_append_fresh
  rw [List.any_eq_false]
  intro r hr
  have := hwf r hr
  simp only [beq_iff_eq]
  omega

/-- Characterisation of `_get_or_create_blog` on the reuse branch: the result
row keeps the matched row's id and status; its topic list either is the
matched row's list unchanged, or has the new entry appended — the latter only
when the topic string is truthy and not yet among the entry contents. -/
lemma _get_or_create_blog_existing :
    ∀ (s : Session) (u c topic : String) (email_id brand_name : Option String)
      (iprf : String) (ts : Option String) (b0 : BlogRec),
      get_blog_by_user_and_company s u c = some b0 →
      ∃ b3 : BlogRec,
        _get_or_create_blog s u c topic email_id brand_name iprf ts =
          (b3, { s with pending := s.pending.put b3 }) ∧
        b3.status = b0.status ∧ b3.id = b0.id ∧
        b3.user_id = b0.user_id ∧ b3.company_url = b0.company_url ∧
        (b3.topic = b0.topic ∨
         (b3.topic = Blog.ensure_entries b0.topic ++ [Blog.make_entry topic iprf ts] ∧
          topic ∉ Blog.entry_contents (Blog.ensure_entries b0.topic) ∧ topic ≠ "")) := by
  intro s u c topic email_id brand_name iprf ts b0 hfind
  by_cases h1 : (otruthy email_id && !otruthy b0.email_id) = true <;>
  by_cases h2 : (otruthy brand_name && !otruthy b0.brand_name) = true <;>
  by_cases h3 : ¬topic = "" ∧ topic ∉ Blog.entry_contents (Blog.ensure_entries b0.topic) <;>
  simp [_get_or_create_blog, hfind, h1, h2] <;>
  first
    | (rw [if_pos h3]
       exact ⟨_, ⟨rfl, rfl⟩, rfl, rfl, rfl, rfl, Or.inr ⟨rfl, h3.2, h3.1⟩⟩)
    | (rw [if_neg h3]
       exact ⟨_, ⟨rfl, rfl⟩, rfl, rfl, rfl, rfl, Or.inl rfl⟩)

/-- **C10.** `_get_or_create_blog` preserves distinctness of topic contents:
if the matched blog's topic contents are pairwise distinct (vacuously when a
fresh row is created), the resulting blog's topic contents are pairwise
distinct — a topic entry is appended only when its string is not yet among
the contents. -/
theorem get_or_create_blog_topic_nodup :
    ∀ (s : Session) (user_id company_url topic : String)
      (email_id brand_name : Option String) (iprf : String) (ts : Option String),
      (∀ b0, get_blog_by_user_and_company s user_id company_url = some b0 →
         (Blog.entry_contents (Blog.ensure_entries b0.topic)).Nodup) →
      (Blog.entry_contents
        ((_get_or_create_blog s user_id company_url topic
            email_id brand_name iprf ts).1.topic)).Nodup := by
  intro s user_id company_url topic email_id brand_name iprf ts hinv
  cases hfind : get_blog_by_user_and_company s user_id company_url with
  | none =>
    simp [_get_or_create_blog, hfind, create_blog_entry, Blog.entry_contents,
      Blog.make_entry]
  | some b0 =>
    obtain ⟨b3, heq, -, -, -, -, hdisj⟩ :=
      _get_or_create_blog_existing s user_id company_url topic
        email_id brand_name iprf ts b0 hfind
    rw [heq]
    show (Blog.entry_contents b3.topic).Nodup
    rcases hdisj with h | ⟨h, hmem, -⟩
    · rw [h]
      exact hinv b0 hfind
    · rw [h]
      simp only [Blog.entry_contents, Blog.ensure_entries, Blog.make_entry,
        List.map_append, List.map_cons, List.map_nil]
      rw [List.nodup_append]
      have hnotmem : topic ∉ List.map (fun t => t.content) b0.topic := by
        simpa [Blog.entry_contents, Blog.ensure_entries] using hmem
      refine ⟨hinv b0 hfind, List.nodup_singleton _, ?_⟩
      intro a ha hb
      simp only [List.mem_singleton] at hb
      subst hb
      exact hnotmem ha

/-- A concrete blog row used by the persistence witnesses. -/
def wBlog1 : BlogRec :=
  { id := 0
  , user_id := "u1"
  , company_url := "c.com"
  , email_id := none
  , brand_name := none
  , topic := [⟨"T1", "false", none⟩]
  , status := "COMPLETED"
  , blog_content := none
  , twitter_post := []
  , linkedin_post := []
  , reddit_post := [] }

/-- A concrete store holding `wBlog1`. -/
def wDb1 : DB := ⟨[wBlog1], 1⟩

/-- Application of C10 on a session holding one blog with one topic. -/
theorem get_or_create_blog_topic_nodup_witness :
    (Blog.entry_contents
      ((_get_or_create_blog (Session.begin wDb1)
          "u1" "c.com" "T2" none none "false" none).1.topic)).Nodup :=
  get_or_create_blog_topic_nodup (Session.begin wDb1)
    "u1" "c.com" "T2" none none "false" none
    (by
      intro b0 hb
      have hb' : some wBlog1 = some b0 := hb
      cases hb'
      decide)

/-- A transaction whose block always succeeds commits the block's session. -/
lemma get_session_ok {α : Type} (db : DB) (f : Session → α × Session) :
    get_session db (fun s => .ok (f s)) =
      ⟨.ok (f (Session.begin db)).1, (f (Session.begin db)).2.pending,
       [.opened, .committed, .closed]⟩ := rfl

/-- In a well-formed store, the row created or reused by `_get_or_create_blog`
is findable by its id in the session it returns. -/
lemma findById_get_or_create (db : DB) (u c topic : String)
    (e bn : Option String) (iprf : String) (ts : Option String) (hwf : db.wf) :
    ((_get_or_create_blog (Session.begin db) u c topic e bn iprf ts).2.pending.findById
      (_get_or_create_blog (Session.begin db) u c topic e bn iprf ts).1.id) =
    some (_get_or_create_blog (Session.begin db) u c topic e bn iprf ts).1 := by
  cases hfind : get_blog_by_user_and_company (Session.begin db) u c with
  | some b0 =>
    obtain ⟨b3, heq, -, -, -, -, -⟩ :=
      _get_or_create_blog_existing (Session.begin db) u c topic e bn iprf ts b0 hfind
    simp only [heq]
    exact findById_put db b3
  | none =>
    simp only [_get_or_create_blog, hfind, create_blog_entry]
    simp only [Session.begin]
    apply findById_fresh db _ hwf
    rfl

/-- **C6 (amended).** `_process_single_blog` first creates a blog row with
status PENDING or reuses the existing row for the user and company (leaving
its status unchanged); if the pipeline succeeds, the row is updated to
COMPLETED with the generated content and its dictionary form is returned; if
the pipeline raises, the row is updated to FAILED and the exception is
re-raised. -/
theorem process_single_blog_status_spec :
    ∀ (env : Env) (db : DB) (p : Payload) (t : String),
      db.wf → p.topic = some t → pyStrip t ≠ "" →
      ∃ (bEntry : BlogRec) (s1 : Session),
        _get_or_create_blog (Session.begin db) (pyStrip p.user_id) (pyStrip p.company_url)
            (pyStrip t) p.email_id p.brand_name
            (if truthy p.prompt then "true" else p.is_prompt_field.getD "false")
            p.timestamp = (bEntry, s1) ∧
        (get_blog_by_user_and_company (Session.begin db) (pyStrip p.user_id)
            (pyStrip p.company_url) = none → bEntry.status = "PENDING") ∧
        (∀ b0, get_blog_by_user_and_company (Session.begin db) (pyStrip p.user_id)
            (pyStrip p.company_url) = some b0 → bEntry.status = b0.status) ∧
        (∀ content evs,
           AEOBlogPipeline.run env (some (pyStrip t)) none = .ok (content, evs) →
           _process_single_blog env db p =
             (.ok (Blog.to_dict { bEntry with status := "COMPLETED", blog_content := some content }),
              s1.pending.put { bEntry with status := "COMPLETED", blog_content := some content }) ∧
           (s1.pending.put { bEntry with status := "COMPLETED", blog_content := some content }).findById bEntry.id =
             some { bEntry with status := "COMPLETED", blog_content := some content }) ∧
        (∀ e, AEOBlogPipeline.run env (some (pyStrip t)) none = .error e →
           _process_single_blog env db p =
             (.error e, s1.pending.put { bEntry with status := "FAILED" }) ∧
           (s1.pending.put { bEntry with status := "FAILED" }).findById bEntry.id =
             some { bEntry with status := "FAILED" }) := by
  intro env db p t hwf htop hts
  have ht' : t ≠ "" := fun h => hts (by rw [h]; rfl)
  have htr : truthy (some t) = true := by simp [truthy, ht']
  have h2 : (pyStrip t == "") = false := by simpa using hts
  refine ⟨(_get_or_create_blog (Session.begin db) (pyStrip p.user_id)
      (pyStrip p.company_url) (pyStrip t) p.email_id p.brand_name
      (if truthy p.prompt then "true" else p.is_prompt_field.getD "false")
      p.timestamp).1,
    (_get_or_create_blog (Session.begin db) (pyStrip p.user_id)
      (pyStrip p.company_url) (pyStrip t) p.email_id p.brand_name
      (if truthy p.prompt then "true" else p.is_prompt_field.getD "false")
      p.timestamp).2, rfl, ?_, ?_, ?_, ?_⟩
  · intro hfind
    simp [_get_or_create_blog, hfind, create_blog_entry]
  · intro b0 hfind
    obtain ⟨b3, heq3, hst, -, -, -, -⟩ :=
      _get_or_create_blog_existing (Session.begin db) (pyStrip p.user_id)
        (pyStrip p.company_url) (pyStrip t) p.email_id p.brand_name
        (if truthy p.prompt then "true" else p.is_prompt_field.getD "false")
        p.timestamp b0 hfind
    rw [heq3]
    exact hst
  · intro content evs hrun
    have hfb := findById_get_or_create db (pyStrip p.user_id) (pyStrip p.company_url)
      (pyStrip t) p.email_id p.brand_name
      (if truthy p.prompt then "true" else p.is_prompt_field.getD "false")
      p.timestamp hwf
    simp only [Session.begin] at hfb
    constructor
    · rw [_process_single_blog]
      simp only [htop, Option.getD_some, htr, Bool.not_true, Bool.false_and,
        Bool.and_false, Bool.false_eq_true, if_false, h2, get_session_ok, hrun]
      simp only [get_session, update_blog_status, Session.begin]
      simp only [hfb]
      rfl
    · exact findById_put _ _
  · intro e hrun
    have hfb := findById_get_or_create db (pyStrip p.user_id) (pyStrip p.company_url)
      (pyStrip t) p.email_id p.brand_name
      (if truthy p.prompt then "true" else p.is_prompt_field.getD "false")
      p.timestamp hwf
    simp only [Session.begin] at hfb
    constructor
    · rw [_process_single_blog]
      simp only [htop, Option.getD_some, htr, Bool.not_true, Bool.false_and,
        Bool.and_false, Bool.false_eq_true, if_false, h2, get_session_ok, hrun]
      simp only [get_session, update_blog_status, Session.begin]
      simp only [hfb]
    · exact findById_put _ _

/-- A concrete payload with a fixed topic, used by the persistence
witnesses. -/
def wPayload : Payload :=
  { topic := some "T"
  , prompt := none
  , company_url := "c.com"
  , user_id := "u1"
  , email_id := none
  , brand_name := none
  , is_prompt_field := none
  , timestamp := none }

/-- Application of C6's amended statement on an empty store. -/
theorem process_single_blog_status_spec_witness :
    ∃ (bEntry : BlogRec) (s1 : Session),
      _get_or_create_blog (Session.begin (DB.mk [] 0)) (pyStrip wPayload.user_id)
          (pyStrip wPayload.company_url) (pyStrip "T") wPayload.email_id
          wPayload.brand_name
          (if truthy wPayload.prompt then "true" else wPayload.is_prompt_field.getD "false")
          wPayload.timestamp = (bEntry, s1) ∧
      (get_blog_by_user_and_company (Session.begin (DB.mk [] 0)) (pyStrip wPayload.user_id)
          (pyStrip wPayload.company_url) = none → bEntry.status = "PENDING") ∧
      (∀ b0, get_blog_by_user_and_company (Session.begin (DB.mk [] 0)) (pyStrip wPayload.user_id)
          (pyStrip wPayload.company_url) = some b0 → bEntry.status = b0.status) ∧
      (∀ content evs,
         AEOBlogPipeline.run stubEnv (some (pyStrip "T")) none = .ok (content, evs) →
         _process_single_blog stubEnv (DB.mk [] 0) wPayload =
           (.ok (Blog.to_dict { bEntry with status := "COMPLETED", blog_content := some content }),
            s1.pending.put { bEntry with status := "COMPLETED", blog_content := some content }) ∧
         (s1.pending.put { bEntry with status := "COMPLETED", blog_content := some content }).findById bEntry.id =
           some { bEntry with status := "COMPLETED", blog_content := some content }) ∧
      (∀ e, AEOBlogPipeline.run stubEnv (some (pyStrip "T")) none = .error e →
         _process_single_blog stubEnv (DB.mk [] 0) wPayload =
           (.error e, s1.pending.put { bEntry with status := "FAILED" }) ∧
         (s1.pending.put { bEntry with status := "FAILED" }).findById bEntry.id =
           some { bEntry with status := "FAILED" }) :=
  process_single_blog_status_spec stubEnv (DB.mk [] 0) wPayload "T"
    (by intro b hb; simp at hb) rfl (by decide)

/-- **C6 counterexample.** When a blog row already exists for the user and
company, the first step of `_process_single_blog` reuses it *without*
setting its status to PENDING: with an existing COMPLETED row, the row after
the create-or-reuse step still has status COMPLETED. -/
theorem process_single_blog_pending_counterexample :
    (_get_or_create_blog (Session.begin wDb1) "u1" "c.com" "T2"
        none none "false" none).1.status = "COMPLETED" ∧
    (_get_or_create_blog (Session.begin wDb1) "u1" "c.com" "T2"
        none none "false" none).1.status ≠ "PENDING" := by
  constructor <;> decide

/-- Each prompt of a multi-prompt request yields exactly one result in order:
the dictionary of a processed blog, or a FAILED error dictionary carrying
that prompt. -/
lemma processPrompts_forall :
    ∀ (l : List String) (env : Env) (rp : RawPayload) (db : DB),
      List.Forall₂ (fun pr item => (∃ d, item = BlogResult.done d) ∨
          (∃ m, item = BlogResult.failed pr m "FAILED"))
        l (processPrompts env rp db l).1 := by
  intro l
  induction l with
  | nil =>
    intro env rp db
    rw [processPrompts]
    exact List.Forall₂.nil
  | cons pr rest ih =>
    intro env rp db
    rw [processPrompts]
    refine List.Forall₂.cons ?_ (ih env rp _)
    cases h : (_process_single_blog env db (rp.toPayload (some pr) none)).1 with
    | ok d => exact Or.inl ⟨d, rfl⟩
    | error e => exact Or.inr ⟨e.message, rfl⟩

/-- **C9.** When the prompt field is (or parses to) a list, and the payload
carries a user and company, `generate_and_store_blog` never raises for an
individual item: it returns one result per prompt in order, a failing item
contributing a dictionary with that prompt, the error message and status
FAILED, while the remaining prompts are still processed. -/
theorem generate_and_store_blog_multi_spec :
    ∀ (env : Env) (db : DB) (rp : RawPayload) (l : List String),
      otruthy rp.company_url = true → otruthy rp.user_id = true →
      rp.prompt = .multi l →
      ∃ items db',
        generate_and_store_blog env db rp = (.ok (.many items), db') ∧
        items.length = l.length ∧
        List.Forall₂ (fun pr item => (∃ d, item = BlogResult.done d) ∨
            (∃ m, item = BlogResult.failed pr m "FAILED")) l items := by
  intro env db rp l hc hu hp
  refine ⟨(processPrompts env rp db l).1, (processPrompts env rp db l).2, ?_, ?_, ?_⟩
  · rw [generate_and_store_blog, hc, hu, hp]
    rfl
  · exact (processPrompts_forall l env rp db).length_eq.symm
  · exact processPrompts_forall l env rp db

/-- A concrete multi-prompt payload: one workable prompt and one empty
prompt (which makes its item fail). -/
def wRawPayload : RawPayload :=
  { topic := none
  , prompt := .multi ["about AEO", ""]
  , company_url := some "c.com"
  , user_id := some "u1"
  , email_id := none
  , brand_name := none
  , is_prompt_field := none
  , timestamp := none }

/-- Application of C9 at a concrete multi-prompt payload. -/
theorem generate_and_store_blog_multi_spec_witness :
    ∃ items db',
      generate_and_store_blog stubEnv (DB.mk [] 0) wRawPayload =
        (.ok (.many items), db') ∧
      items.length = ["about AEO", ""].length ∧
      List.Forall₂ (fun pr item => (∃ d, item = BlogResult.done d) ∨
          (∃ m, item = BlogResult.failed pr m "FAILED"))
        ["about AEO", ""] items :=
  generate_and_store_blog_multi_spec stubEnv (DB.mk [] 0) wRawPayload
    ["about AEO", ""] rfl rfl rfl

end Intelliwrite
